import Mathlib

/-!
Verification of the qb-sync poll-process-reconcile loop.

Shallow embedding of the Go sources:
  src/internal/qbit/client.go    (Torrent, TorrentFile, isTransitionalState)
  src/internal/worker/monitor.go (ProcessTorrent, processCompletedTorrents,
                                  refreshPlexLibraries, monitorLoop backoff,
                                  loginWithRetry; package files: LinkOrCopy,
                                  BuildDestPath, createHardlink, copyFile,
                                  isCrossDeviceError)

The filesystem is modelled as an association list from paths to files plus a
set of existing directories; a file records its size (Go int64, modelled as
Int) and a content identifier standing for its bytes.  Devices are modelled
by an external assignment of a device number to each path, which never
changes during a run (mount points are fixed).  Time durations are in whole
seconds (time.Second = 1, 2*time.Minute = 120).
-/

namespace QbSync

/-- A file on disk: its byte size and an identifier standing for its bytes
(two paths with the same contentId hold the same bytes, as after a hardlink
or an exact copy). -/
structure FsFile where
  size : Int
  contentId : Nat
deriving DecidableEq, Repr

/-- The filesystem state: files keyed by absolute path (first match wins)
and the set of directories that exist. -/
structure Fs where
  files : List (String × FsFile)
  dirs : List String
deriving DecidableEq, Repr

/-- os.Stat restricted to regular files: look a path up. -/
def Fs.lookupFile (fs : Fs) (p : String) : Option FsFile :=
  fs.files.lookup p

/-- The size reported by os.Stat for a path, when the path exists. -/
def Fs.statSize (fs : Fs) (p : String) : Option Int :=
  (fs.lookupFile p).map (·.size)

/-- Create or overwrite the file at a path. -/
def Fs.insertFile (fs : Fs) (p : String) (f : FsFile) : Fs :=
  ⟨(p, f) :: fs.files, fs.dirs⟩

/-- os.MkdirAll: ensure a directory exists (a no-op when it already does).
The model has no permission failures, so this always succeeds, as it does in
the intended deployment. -/
def Fs.mkdirAll (fs : Fs) (d : String) : Fs :=
  if fs.dirs.contains d then fs else ⟨fs.files, d :: fs.dirs⟩

/-- Errors an os.Link call can produce in the model. -/
inductive FsError where
  | eexist
  | enoent
  | exdev
deriving DecidableEq, Repr

/-- os.Link src dst: fails with EEXIST when dst exists, ENOENT when src is
missing, EXDEV when src and dst live on different devices; otherwise dst
becomes a second name for the bytes of src. -/
def Fs.link (fs : Fs) (dev : String → Nat) (src dst : String) :
    Option FsError × Fs :=
  if (fs.lookupFile dst).isSome then (some .eexist, fs)
  else
    match fs.lookupFile src with
    | none => (some .enoent, fs)
    | some sf =>
        if dev src = dev dst then (none, fs.insertFile dst sf)
        else (some .exdev, fs)

/-- filepath.Join for the two-argument uses in the source. -/
def joinPath (a b : String) : String := a ++ "/" ++ b

/-- strings.HasSuffix, on the character lists so that it evaluates by
structural recursion. -/
def hasSuffix (s post : String) : Bool :=
  post.data.isSuffixOf s.data

/-- filepath.Dir: everything before the last path separator ("." when there
is none). -/
def dirOf (p : String) : String :=
  match (p.data.reverse.dropWhile (fun c => c ≠ '/')) with
  | [] => "."
  | _ :: rest => String.mk rest.reverse

/-- Errors produced by the hardlink/copy procedures of package files
(monitor.go lines 942-1008). -/
inductive OpError where
  | crossDevice (src dst : String)
  | invalidFallback (s : String)
  | linkFailed (e : FsError)
  | openSourceFailed (p : String)
  | sizeMismatch (expected got : Int)
deriving DecidableEq, Repr

/-- isCrossDeviceError (monitor.go lines 1010-1022): the Go code matches the
error text "cross-device" / "invalid cross-device link" / "EXDEV", which is
exactly the rendering of the EXDEV errno; in the model that is the exdev
constructor. -/
def isCrossDeviceError (e : FsError) : Bool :=
  match e with
  | .exdev => true
  | _ => false

/-- copyFile (monitor.go lines 964-1008): open the source, create/truncate
the destination, stream the source bytes, then verify the written count
against the expected size.  Note the destination is created and written
before the size check, so on a mismatch it is left in place. -/
def copyFile (src dst : String) (expectedSize : Int) (fs : Fs) :
    Option OpError × Fs :=
  match fs.lookupFile src with
  | none => (some (.openSourceFailed src), fs)
  | some sf =>
      let fs1 := fs.insertFile dst sf
      if sf.size = expectedSize then (none, fs1)
      else (some (.sizeMismatch expectedSize sf.size), fs1)

/-- createHardlink (monitor.go lines 942-962): try os.Link; on a
cross-device error apply the configured fallback; any other link error is a
hard failure. -/
def createHardlink (src dst fallback : String) (expectedSize : Int)
    (dev : String → Nat) (fs : Fs) : Option OpError × Fs :=
  match Fs.link fs dev src dst with
  | (none, fs') => (none, fs')
  | (some e, fs') =>
      if isCrossDeviceError e then
        match fallback with
        | "copy" => copyFile src dst expectedSize fs'
        | "error" => (some (.crossDevice src dst), fs')
        | other => (some (.invalidFallback other), fs')
      else (some (.linkFailed e), fs')

/-- MonitorConfig (config.go), the fields the worker reads. -/
structure MonitorConfig where
  category : String
  destPath : String
  operation : String
  crossDeviceFallback : String
  deleteTorrent : Bool
  deleteFiles : Bool
  preserveSubfolder : Bool
  dryRun : Bool
deriving DecidableEq, Repr

/-- PlexConfig: only the enabled flag matters to the control flow of the worker. -/
structure PlexConfig where
  enabled : Bool
deriving DecidableEq, Repr

/-- The application configuration as the worker consumes it. -/
structure Config where
  monitor : MonitorConfig
  plex : PlexConfig
deriving DecidableEq, Repr

/-- Torrent (qbit/client.go lines 18-29, plus the category field the worker
variant logs and filters on). Progress is an exact fraction: the Go code
compares it with == 1.0, and completed torrents report exactly 1.0. -/
structure Torrent where
  hash : String
  name : String
  state : String
  progress : ℚ
  savePath : String
  contentPath : String
  size : Int
  category : String
deriving DecidableEq, Repr

/-- TorrentFile (qbit/client.go lines 31-38). -/
structure TorrentFile where
  name : String
  size : Int
  progress : ℚ
  priority : Int
  isSeed : Bool
deriving DecidableEq, Repr

/-- FileOperation (monitor.go lines 871-878). -/
structure FileOperation where
  source : String
  destination : String
  size : Int
  success : Bool
  error : Option OpError
deriving DecidableEq, Repr

/-- The error component LinkOrCopy can return alongside (or instead of) a
FileOperation. -/
inductive LcError where
  | skipIncomplete (name : String)
  | destPathError (e : String)
  | unsupportedOperation (op : String)
  | opFailed (e : OpError)
deriving DecidableEq, Repr

/-- The pair LinkOrCopy returns in Go, (op *FileOperation, err error),
together with the filesystem it leaves behind. -/
structure LcResult where
  op : Option FileOperation
  err : Option LcError
  fs : Fs
deriving DecidableEq, Repr

/-- BuildDestPath (monitor.go lines 932-940): dest_path/torrent_name/file
when subfolders are preserved, dest_path/file otherwise; the Go function
returns a (string, error) pair whose error is nil on both paths. -/
def BuildDestPath (cfg : MonitorConfig) (t : Torrent) (f : TorrentFile) :
    String × Option String :=
  if cfg.preserveSubfolder then
    (joinPath (joinPath cfg.destPath t.name) f.name, none)
  else
    (joinPath cfg.destPath f.name, none)

/-- LinkOrCopy (monitor.go lines 881-930): reject .!qB files, build paths,
return early when the destination already exists with the expected size,
otherwise create the destination directory and run the configured
operation. -/
def LinkOrCopy (cfg : MonitorConfig) (t : Torrent) (f : TorrentFile)
    (dev : String → Nat) (fs : Fs) : LcResult :=
  if hasSuffix f.name ".!qB" then
    ⟨none, some (.skipIncomplete f.name), fs⟩
  else
    let sourcePath := joinPath t.contentPath f.name
    match (BuildDestPath cfg t f).2 with
    | some e => ⟨none, some (.destPathError e), fs⟩
    | none =>
        let destPath := (BuildDestPath cfg t f).1
        if fs.statSize destPath = some f.size then
          ⟨some ⟨sourcePath, destPath, f.size, true, none⟩, none, fs⟩
        else
          let fs1 := fs.mkdirAll (dirOf destPath)
          match cfg.operation with
          | "hardlink" =>
              let r := createHardlink sourcePath destPath
                cfg.crossDeviceFallback f.size dev fs1
              ⟨some ⟨sourcePath, destPath, f.size, r.1.isNone, r.1⟩,
                r.1.map .opFailed, r.2⟩
          | "copy" =>
              let r := copyFile sourcePath destPath f.size fs1
              ⟨some ⟨sourcePath, destPath, f.size, r.1.isNone, r.1⟩,
                r.1.map .opFailed, r.2⟩
          | other => ⟨none, some (.unsupportedOperation other), fs1⟩

/-- The per-file loop of ProcessTorrent (monitor.go lines 180-205): threads
the filesystem through LinkOrCopy and carries the mutable allSuccess and
processedCount variables of the Go loop as accumulators (an error from
LinkOrCopy marks failure and skips the file; in dry-run mode a non-error
result only bumps the counter). -/
def fileLoop (cfg : MonitorConfig) (t : Torrent) (dev : String → Nat) :
    List TorrentFile → Fs → Bool → Nat → Fs × Bool × Nat
  | [], fs, ok, cnt => (fs, ok, cnt)
  | f :: rest, fs, ok, cnt =>
      let r := LinkOrCopy cfg t f dev fs
      match r.err with
      | some _ => fileLoop cfg t dev rest r.fs false cnt
      | none =>
          if cfg.dryRun then fileLoop cfg t dev rest r.fs ok (cnt + 1)
          else
            match r.op with
            | some op =>
                if op.success then fileLoop cfg t dev rest r.fs ok (cnt + 1)
                else fileLoop cfg t dev rest r.fs false cnt
            | none => fileLoop cfg t dev rest r.fs false cnt

/-- The result of the refreshPlexLibraries loop (monitor.go lines 246-274):
the destination paths passed to RefreshPathForFile in order, the set of
directories marked as refreshed, and how many files were skipped because
BuildDestPath reported an error. -/
structure RefreshResult where
  calls : List String
  seen : List String
  errSkips : Nat
deriving DecidableEq, Repr

/-- refreshPlexLibraries (monitor.go lines 239-278): for each file, build
its destination path (skipping the file on a path error), take the
containing directory, skip it when already refreshed, otherwise invoke the
refresh collaborator and mark the directory only when the refresh succeeds.
The refreshedPaths map is created afresh for every call, i.e. per torrent.
The outcome of the collaborator for a given path is the ro argument. -/
def refreshPlexLibraries (cfg : MonitorConfig) (t : Torrent)
    (ro : String → Bool) :
    List TorrentFile → List String → RefreshResult
  | [], seen => ⟨[], seen, 0⟩
  | f :: rest, seen =>
      match (BuildDestPath cfg t f).2 with
      | some _ =>
          let r := refreshPlexLibraries cfg t ro rest seen
          ⟨r.calls, r.seen, r.errSkips + 1⟩
      | none =>
          let destPath := (BuildDestPath cfg t f).1
          let dirPath := dirOf destPath
          if seen.contains dirPath then
            refreshPlexLibraries cfg t ro rest seen
          else if ro destPath then
            let r := refreshPlexLibraries cfg t ro rest (dirPath :: seen)
            ⟨destPath :: r.calls, r.seen, r.errSkips⟩
          else
            let r := refreshPlexLibraries cfg t ro rest seen
            ⟨destPath :: r.calls, r.seen, r.errSkips⟩

/-- What one ProcessTorrent run did: the filesystem it left, the refresh
invocations it made, whether it called DeleteTorrent, and its
processedCount. -/
structure ProcResult where
  fs : Fs
  refreshCalls : List String
  deleteCalled : Bool
  processedCount : Nat
deriving DecidableEq, Repr

/-- ProcessTorrent (monitor.go lines 162-236): early return on an empty
file listing; run the per-file loop; when not in dry-run and allSuccess
held (the zero-files disjunct of the guard is only reachable with a
non-empty listing, hence never), refresh Plex when enabled and files were
processed, and delete the torrent when configured.  The already fetched
file listing of the torrent is the torrentFiles argument. -/
def ProcessTorrent (cfg : Config) (t : Torrent)
    (torrentFiles : List TorrentFile) (dev : String → Nat)
    (ro : String → Bool) (fs : Fs) : ProcResult :=
  if torrentFiles.isEmpty then ⟨fs, [], false, 0⟩
  else
    let r := fileLoop cfg.monitor t dev torrentFiles fs true 0
    if !cfg.monitor.dryRun && (r.2.1 || torrentFiles.isEmpty) then
      let calls :=
        if cfg.plex.enabled && decide (0 < r.2.2) then
          (refreshPlexLibraries cfg.monitor t ro torrentFiles []).calls
        else []
      ⟨r.1, calls, cfg.monitor.deleteTorrent, r.2.2⟩
    else ⟨r.1, [], false, r.2.2⟩

/-- The transitional state strings of isTransitionalState
(qbit/client.go lines 232-244). -/
def transitionalStates : List String :=
  ["checkingDL", "checkingUP", "checkingResumeData",
   "moving", "metaDL", "allocating"]

/-- isTransitionalState (qbit/client.go lines 232-244): a linear scan of
the transitional state strings. -/
def isTransitionalState (state : String) : Bool :=
  transitionalStates.any (fun s => state == s)

/-- Modelled from the spec: FilterCompletedTorrents is invoked by
processCompletedTorrents (monitor.go lines 424-431) but its body is not
among the sources; the spec defines it as the pure function returning "the
subset where category matches exactly AND progress == 1.0 AND state is not
transitional", with the transitional set given by isTransitionalState. -/
def FilterCompletedTorrents (torrents : List Torrent) (category : String) :
    List Torrent :=
  torrents.filter fun t =>
    t.category == category && t.progress == 1 && !isTransitionalState t.state

/-- What one tick left behind: the filesystem, every refresh invocation of
the tick in order, and the DeleteTorrent calls (hash, deleteFiles) made. -/
structure TickResult where
  fs : Fs
  refreshCalls : List String
  deletes : List (String × Bool)
deriving DecidableEq, Repr

/-- The per-torrent loop of processCompletedTorrents (monitor.go lines
149-157): torrents are handled sequentially, each seeing the filesystem the
previous one left. filesOf gives the listing FilesByHash returns for a
hash. -/
def processTorrentList (cfg : Config) (dev : String → Nat)
    (ro : String → Bool) (filesOf : String → List TorrentFile) :
    List Torrent → Fs → TickResult
  | [], fs => ⟨fs, [], []⟩
  | t :: rest, fs =>
      let r := ProcessTorrent cfg t (filesOf t.hash) dev ro fs
      let rr := processTorrentList cfg dev ro filesOf rest r.fs
      ⟨rr.fs, r.refreshCalls ++ rr.refreshCalls,
        (if r.deleteCalled then [(t.hash, cfg.monitor.deleteFiles)] else [])
          ++ rr.deletes⟩

/-- processCompletedTorrents (monitor.go lines 131-159) as one tick: list
all torrents (the allTorrents argument is what ListAllTorrents returned),
filter client-side, process each in turn. -/
def processCompletedTorrents (cfg : Config) (dev : String → Nat)
    (ro : String → Bool) (filesOf : String → List TorrentFile)
    (allTorrents : List Torrent) (fs : Fs) : TickResult :=
  processTorrentList cfg dev ro filesOf
    (FilterCompletedTorrents allTorrents cfg.monitor.category) fs

/-- The initial value of the Monitor backoff field (monitor.go line 62),
in seconds. -/
def initialBackoff : Int := 1

/-- The backoff update after one tick (monitor.go lines 118-125): doubled
and capped at two minutes on a failed tick, reset to one second on a
successful one. -/
def nextBackoff (b : Int) (tickOk : Bool) : Int :=
  if tickOk then 1 else min (b * 2) 120

/-- The backoff value in effect when the (k+1)-th consecutive failed tick
is observed, starting from the initial value. -/
def backoffAfterFails : Nat → Int
  | 0 => initialBackoff
  | k + 1 => nextBackoff (backoffAfterFails k) false

/-- loginWithRetry (monitor.go lines 541-556), abstracted over the sequence
of login outcomes: the durations slept, in order, until the first
successful login.  The loop sleeps the current backoff after each failure
and never modifies it. -/
def loginWithRetrySleeps (outcomes : List Bool) (backoff : Int) :
    List Int :=
  match outcomes with
  | [] => []
  | ok :: rest =>
      if ok then [] else backoff :: loginWithRetrySleeps rest backoff

/-! Concrete fixtures used by the counterexamples and witnesses. -/

/-- A device assignment putting every path on one device. -/
def devZero : String → Nat := fun _ => 0

/-- A refresh collaborator that always succeeds. -/
def roTrue : String → Bool := fun _ => true

/-- A dry-run configuration (copy mode, deletion configured). -/
def cfgDryRun : Config := ⟨⟨"c", "dest", "copy", "copy", true, false, false, true⟩, ⟨false⟩⟩

/-- A live configuration (copy mode, deletion configured, dry-run off). -/
def cfgDel : Config := ⟨⟨"c", "dest", "copy", "copy", true, false, false, false⟩, ⟨false⟩⟩

/-- A completed torrent whose content lives under src. -/
def torA : Torrent := ⟨"h1", "T1", "uploading", 1, "sv", "src", 4, "c"⟩

/-- A fully downloaded 4-byte file. -/
def filA : TorrentFile := ⟨"a.mkv", 4, 1, 0, false⟩

/-- An in-progress piece file carrying the incomplete marker suffix. -/
def filB : TorrentFile := ⟨"b.!qB", 2, 1, 0, false⟩

/-- A filesystem holding only the source of filA. -/
def fsA : Fs := ⟨[("src/a.mkv", ⟨4, 1⟩)], []⟩

/-- A filesystem holding the sources of filA and filB. -/
def fsB : Fs := ⟨[("src/a.mkv", ⟨4, 1⟩), ("src/b.!qB", ⟨2, 2⟩)], []⟩

/-- A hardlink-mode configuration with fallback error. -/
def cfgHl : MonitorConfig := ⟨"c", "dest", "hardlink", "error", false, false, false, false⟩

/-- A file whose listed size is 7 bytes. -/
def filHl : TorrentFile := ⟨"a", 7, 1, 0, false⟩

/-- A filesystem where the source of filHl is actually 5 bytes on disk. -/
def fsHl : Fs := ⟨[("src/a", ⟨5, 0⟩)], ["dest"]⟩

/-- A live configuration with Plex refresh enabled and deletion off. -/
def cfgTick : Config := ⟨⟨"c", "dest", "copy", "copy", false, false, false, false⟩, ⟨true⟩⟩

/-- A second completed torrent, with content under s2. -/
def torB : Torrent := ⟨"h2", "T2", "uploading", 1, "sv", "s2", 4, "c"⟩

/-- A variant of torA whose content lives under s1, for the tick scenario. -/
def torA1 : Torrent := ⟨"h1", "T1", "uploading", 1, "sv", "s1", 4, "c"⟩

/-- The file of torB. -/
def filB2 : TorrentFile := ⟨"b.mkv", 4, 1, 0, false⟩

/-- Sources for the two tick torrents. -/
def fsTick : Fs := ⟨[("s1/a.mkv", ⟨4, 1⟩), ("s2/b.mkv", ⟨4, 2⟩)], []⟩

/-- The per-hash file listings of the two tick torrents. -/
def filesOfTick : String → List TorrentFile :=
  fun h => if h = "h1" then [filA] else [filB2]

/-- The torrent owning filHl, content under src. -/
def torHl : Torrent := ⟨"h", "T", "uploading", 1, "sv", "src", 7, "c"⟩

/-- A device assignment that separates path s from every other path. -/
def devSplit : String → Nat := fun p => if p = "s" then 0 else 1

/-- A filesystem holding a 3-byte source file at s. -/
def fsW5 : Fs := ⟨[("s", ⟨3, 0⟩)], []⟩

/-- A filesystem where the destination d already exists. -/
def fsEex : Fs := ⟨[("d", ⟨1, 5⟩), ("s", ⟨3, 0⟩)], []⟩

/-! Helper lemmas shared by the claim theorems. -/

/-- BuildDestPath never reports an error: both branches return nil. -/
theorem buildDestPath_err (cfg : MonitorConfig) (t : Torrent)
    (f : TorrentFile) : (BuildDestPath cfg t f).2 = none := by
  unfold BuildDestPath
  split <;> rfl

/-- LinkOrCopy on a file carrying the incomplete marker suffix returns a
skip error and leaves the filesystem untouched. -/
theorem linkOrCopy_skips_incomplete (cfg : MonitorConfig) (t : Torrent)
    (f : TorrentFile) (dev : String → Nat) (fs : Fs)
    (h : hasSuffix f.name ".!qB" = true) :
    LinkOrCopy cfg t f dev fs = ⟨none, some (.skipIncomplete f.name), fs⟩ := by
  unfold LinkOrCopy
  simp [h]

/-- Once the allSuccess accumulator is false it stays false. -/
theorem fileLoop_false_stays (cfg : MonitorConfig) (t : Torrent)
    (dev : String → Nat) :
    ∀ (files : List TorrentFile) (fs : Fs) (cnt : Nat),
      (fileLoop cfg t dev files fs false cnt).2.1 = false := by
  intro files
  induction files with
  | nil => intro fs cnt; rfl
  | cons f rest ih =>
      intro fs cnt
      rcases hr : LinkOrCopy cfg t f dev fs with ⟨op, err, fs2⟩
      simp only [fileLoop, hr]
      cases err with
      | some e => exact ih _ _
      | none =>
          dsimp only
          split
          · exact ih _ _
          · cases op with
            | none => dsimp only; exact ih _ _
            | some o =>
                dsimp only
                split
                · exact ih _ _
                · exact ih _ _

/-- A file with the incomplete marker anywhere in the listing forces the
allSuccess accumulator to false. -/
theorem fileLoop_false_of_incomplete (cfg : MonitorConfig) (t : Torrent)
    (dev : String → Nat) :
    ∀ (files : List TorrentFile) (fs : Fs) (ok : Bool) (cnt : Nat),
      (∃ f ∈ files, hasSuffix f.name ".!qB" = true) →
      (fileLoop cfg t dev files fs ok cnt).2.1 = false := by
  intro files
  induction files with
  | nil =>
      intro fs ok cnt h
      simp at h
  | cons f rest ih =>
      intro fs ok cnt h
      rcases h with ⟨g, hg, hsuf⟩
      rcases List.mem_cons.mp hg with rfl | hmem
      · rw [fileLoop, linkOrCopy_skips_incomplete cfg t g dev fs hsuf]
        exact fileLoop_false_stays cfg t dev _ _ _
      · rcases hr : LinkOrCopy cfg t f dev fs with ⟨op, err, fs2⟩
        simp only [fileLoop, hr]
        cases err with
        | some e => exact fileLoop_false_stays cfg t dev _ _ _
        | none =>
            dsimp only
            split
            · exact ih _ _ _ ⟨g, hmem, hsuf⟩
            · cases op with
              | none => dsimp only; exact fileLoop_false_stays cfg t dev _ _ _
              | some o =>
                  dsimp only
                  split
                  · exact ih _ _ _ ⟨g, hmem, hsuf⟩
                  · exact fileLoop_false_stays cfg t dev _ _ _

/-- The refresh loop never skips a file for a path error. -/
theorem refresh_errSkips_zero (cfg : MonitorConfig) (t : Torrent)
    (ro : String → Bool) :
    ∀ (files : List TorrentFile) (seen : List String),
      (refreshPlexLibraries cfg t ro files seen).errSkips = 0 := by
  intro files
  induction files with
  | nil => intro seen; rfl
  | cons f rest ih =>
      intro seen
      unfold refreshPlexLibraries
      split
      · rename_i x heq
        rw [buildDestPath_err] at heq
        exact Option.noConfusion heq
      · dsimp only
        split
        · exact ih _
        · split
          · simpa using ih _
          · simpa using ih _

/-- Closed form of the backoff after k consecutive failed ticks. -/
theorem backoffAfterFails_closed (k : Nat) :
    backoffAfterFails k = min ((2 : Int) ^ k) 120 := by
  induction k with
  | zero => decide
  | succ k ih =>
      rw [backoffAfterFails, ih, nextBackoff]
      simp only [Bool.false_eq_true, if_false]
      rw [pow_succ]
      rcases le_total ((2 : Int) ^ k) 120 with h1 | h1
      · rw [min_eq_left h1]
      · rw [min_eq_right h1]
        have h2 : (120 : Int) ≤ 2 ^ k * 2 := by linarith
        rw [min_eq_right h2]
        norm_num

/-! The claim theorems. -/

/-- C4: a torrent is returned by FilterCompletedTorrents exactly when it is
among the listed torrents, its category matches exactly, its progress is
1.0, and its state is none of the six transitional client states
(checkingDL, checkingUP, checkingResumeData, moving, metaDL, allocating —
the states the spec writes as checking-download, checking-upload,
checking-resume-data, moving, metadata-download, allocating). -/
theorem filterCompletedTorrents_mem_iff (torrents : List Torrent)
    (category : String) (t : Torrent) :
    t ∈ FilterCompletedTorrents torrents category ↔
      t ∈ torrents ∧ t.category = category ∧ t.progress = 1 ∧
        t.state ≠ "checkingDL" ∧ t.state ≠ "checkingUP" ∧
        t.state ≠ "checkingResumeData" ∧ t.state ≠ "moving" ∧
        t.state ≠ "metaDL" ∧ t.state ≠ "allocating" := by
  simp only [FilterCompletedTorrents, List.mem_filter, Bool.and_eq_true,
    beq_iff_eq, Bool.not_eq_true', isTransitionalState, transitionalStates,
    List.any_eq_false, List.mem_cons, List.not_mem_nil]
  constructor
  · rintro ⟨hmem, ⟨hcat, hprog⟩, hstate⟩
    exact ⟨hmem, hcat, hprog,
      fun habs => hstate _ (Or.inl rfl) habs,
      fun habs => hstate _ (Or.inr (Or.inl rfl)) habs,
      fun habs => hstate _ (Or.inr (Or.inr (Or.inl rfl))) habs,
      fun habs => hstate _ (Or.inr (Or.inr (Or.inr (Or.inl rfl)))) habs,
      fun habs => hstate _ (Or.inr (Or.inr (Or.inr (Or.inr (Or.inl rfl))))) habs,
      fun habs =>
        hstate _ (Or.inr (Or.inr (Or.inr (Or.inr (Or.inr (Or.inl rfl)))))) habs⟩
  · rintro ⟨hmem, hcat, hprog, h1, h2, h3, h4, h5, h6⟩
    refine ⟨hmem, ⟨hcat, hprog⟩, ?_⟩
    intro s hs
    rcases hs with rfl | rfl | rfl | rfl | rfl | rfl | hfalse
    · exact h1
    · exact h2
    · exact h3
    · exact h4
    · exact h5
    · exact h6
    · exact hfalse.elim

/-- C6 (amended): on an empty fetched file listing, ProcessTorrent returns
early, leaving the filesystem untouched, making no refresh calls and never
calling DeleteTorrent — regardless of the deletion and dry-run flags.  The
zero-files disjunct of the deletion guard is unreachable. -/
theorem processTorrent_empty_listing (cfg : Config) (t : Torrent)
    (dev : String → Nat) (ro : String → Bool) (fs : Fs) :
    ProcessTorrent cfg t [] dev ro fs = ⟨fs, [], false, 0⟩ := rfl

/-- C6 (counterexample): with deletion configured and dry-run off, a
torrent with an empty file listing is NOT deleted, contradicting the claim
that the Gateway is instructed to delete it. -/
theorem processTorrent_empty_listing_cex :
    cfgDel.monitor.deleteTorrent = true ∧
    cfgDel.monitor.dryRun = false ∧
    (ProcessTorrent cfgDel torA [] devZero roTrue fsA).deleteCalled = false ∧
    (ProcessTorrent cfgDel torA [] devZero roTrue fsA).fs = fsA := by
  decide

/-- C7 (counterexample): three consecutive login failures sleep 1s, 1s, 1s
— not the 1s, 2s, 4s an exponentially doubling backoff would produce. -/
theorem loginWithRetry_not_exponential_cex :
    loginWithRetrySleeps [false, false, false, true] initialBackoff
      = [1, 1, 1] ∧
    loginWithRetrySleeps [false, false, false, true] initialBackoff
      ≠ [1, 2, 4] := by
  decide

/-- C7 (amended): loginWithRetry retries until the first successful login,
sleeping the current backoff value (initially 1 second) before each retry;
the login loop never modifies the backoff, so every wait equals the initial
value. -/
theorem loginWithRetry_constant_wait (n : Nat) (b : Int) :
    loginWithRetrySleeps (List.replicate n false ++ [true]) b
      = List.replicate n b ∧
    loginWithRetrySleeps (true :: List.replicate n false) b = [] := by
  constructor
  · induction n with
    | zero => rfl
    | succ k ih =>
        simpa [List.replicate_succ, loginWithRetrySleeps] using ih
  · rfl

/-- C9: the tick backoff starts at 1 second; entering the first, second and
third consecutive failed ticks it is 1s, 2s and 4s; each failed tick
doubles it with a 120-second cap (after k failures it is min(2^k, 120)), and
a successful tick resets it to 1 second. -/
theorem tick_backoff_spec :
    initialBackoff = 1 ∧
    backoffAfterFails 0 = 1 ∧
    backoffAfterFails 1 = 2 ∧
    backoffAfterFails 2 = 4 ∧
    (∀ k : Nat, backoffAfterFails k = min ((2 : Int) ^ k) 120) ∧
    (∀ b : Int, nextBackoff b false = min (b * 2) 120) ∧
    (∀ b : Int, nextBackoff b true = 1) := by
  refine ⟨rfl, by decide, by decide, by decide,
    backoffAfterFails_closed, fun b => rfl, fun b => rfl⟩

/-- C10: BuildDestPath is total — its error component is nil on every
input — so the per-file error skip in refreshPlexLibraries never fires
(its skip counter is zero on every input). -/
theorem buildDestPath_total (cfg : MonitorConfig) (t : Torrent) :
    (∀ f : TorrentFile, (BuildDestPath cfg t f).2 = none) ∧
    ∀ (ro : String → Bool) (files : List TorrentFile) (seen : List String),
      (refreshPlexLibraries cfg t ro files seen).errSkips = 0 :=
  ⟨fun f => buildDestPath_err cfg t f, fun ro => refresh_errSkips_zero cfg t ro⟩

/-- C1: with the dry-run flag set, processing a torrent still mutates the
filesystem — LinkOrCopy runs before the dry-run check, so the destination
directory is created and the file is placed — while DeleteTorrent is indeed
not invoked.  Evaluated at the failing input: dry-run on, one 4-byte file,
destination initially absent. -/
theorem dry_run_still_mutates_filesystem :
    cfgDryRun.monitor.dryRun = true ∧
    fsA.lookupFile "dest/a.mkv" = none ∧
    (ProcessTorrent cfgDryRun torA [filA] devZero roTrue fsA).fs.lookupFile
        "dest/a.mkv" = some ⟨4, 1⟩ ∧
    (ProcessTorrent cfgDryRun torA [filA] devZero roTrue fsA).fs.dirs
      = ["dest"] ∧
    (ProcessTorrent cfgDryRun torA [filA] devZero roTrue fsA).deleteCalled
      = false := by
  decide

/-- C2 (counterexample): a torrent holding one successfully placed file
plus one incomplete-marker file, with deletion configured and dry-run off:
the marker file is never placed, but the torrent is NOT deleted, because
the skip error sets allSuccess to false. -/
theorem incomplete_marker_blocks_delete_cex :
    cfgDel.monitor.deleteTorrent = true ∧
    cfgDel.monitor.dryRun = false ∧
    (ProcessTorrent cfgDel torA [filA, filB] devZero roTrue fsB).fs.lookupFile
        "dest/a.mkv" = some ⟨4, 1⟩ ∧
    (ProcessTorrent cfgDel torA [filA, filB] devZero roTrue fsB).fs.lookupFile
        "dest/b.!qB" = none ∧
    (ProcessTorrent cfgDel torA [filA, filB] devZero roTrue fsB).deleteCalled
      = false := by
  decide

/-- C2 (amended): a file carrying the incomplete-marker suffix is never
placed — LinkOrCopy returns a skip error leaving the filesystem untouched —
but that error counts toward allSuccess failure, so a torrent whose listing
contains such a file is never deleted, whatever the other files did. -/
theorem incomplete_marker_skipped_but_counts_failed (cfg : Config)
    (t : Torrent) (files : List TorrentFile) (f : TorrentFile)
    (dev : String → Nat) (ro : String → Bool) (fs : Fs)
    (hmem : f ∈ files) (hsuf : hasSuffix f.name ".!qB" = true) :
    (∀ fs2 : Fs, LinkOrCopy cfg.monitor t f dev fs2
        = ⟨none, some (.skipIncomplete f.name), fs2⟩) ∧
    (fileLoop cfg.monitor t dev files fs true 0).2.1 = false ∧
    (ProcessTorrent cfg t files dev ro fs).deleteCalled = false := by
  have hfl : (fileLoop cfg.monitor t dev files fs true 0).2.1 = false :=
    fileLoop_false_of_incomplete cfg.monitor t dev files fs true 0
      ⟨f, hmem, hsuf⟩
  refine ⟨fun fs2 => linkOrCopy_skips_incomplete cfg.monitor t f dev fs2 hsuf,
    hfl, ?_⟩
  have hne : files.isEmpty = false := by
    cases files with
    | nil => cases hmem
    | cons a l => rfl
  unfold ProcessTorrent
  rw [hne]
  simp only [Bool.false_eq_true, if_false, hfl, Bool.or_false, Bool.and_false]

/-- C2 (witness): the amended behaviour at the end-to-end input of the
spec scenario, a real file plus an incomplete-marker file. -/
theorem incomplete_marker_skipped_but_counts_failed_witness :
    (fileLoop cfgDel.monitor torA devZero [filA, filB] fsB true 0).2.1
      = false ∧
    (ProcessTorrent cfgDel torA [filA, filB] devZero roTrue fsB).deleteCalled
      = false ∧
    LinkOrCopy cfgDel.monitor torA filB devZero fsB
      = ⟨none, some (.skipIncomplete "b.!qB"), fsB⟩ := by
  obtain ⟨h1, h2, h3⟩ :=
    incomplete_marker_skipped_but_counts_failed cfgDel torA [filA, filB]
      filB devZero roTrue fsB (by decide) (by decide)
  exact ⟨h2, h3, h1 fsB⟩

/-- C3 (counterexample): in hardlink mode, with the on-disk source 5 bytes
but the listed file size 7, the first LinkOrCopy call succeeds (os.Link
does not verify sizes) while the second call on the unchanged filesystem
fails with EEXIST — identical inputs, success then failure. -/
theorem linkOrCopy_idempotence_cex :
    (LinkOrCopy cfgHl torHl filHl devZero fsHl).err = none ∧
    Option.map FileOperation.success
        (LinkOrCopy cfgHl torHl filHl devZero fsHl).op = some true ∧
    Option.map FileOperation.success
        (LinkOrCopy cfgHl torHl filHl devZero
          (LinkOrCopy cfgHl torHl filHl devZero fsHl).fs).op = some false ∧
    (LinkOrCopy cfgHl torHl filHl devZero
        (LinkOrCopy cfgHl torHl filHl devZero fsHl).fs).err
      = some (.opFailed (.linkFailed .eexist)) := by
  decide

/-- C3 (amended): the second of two identical LinkOrCopy calls reports
success and leaves the filesystem unchanged, provided the first call left
the destination with size exactly file.size (which copy mode guarantees on
success; hardlink mode guarantees it only when the on-disk source size
matches the listed size). -/
theorem linkOrCopy_second_call_idempotent (cfg : MonitorConfig)
    (t : Torrent) (f : TorrentFile) (dev : String → Nat) (fs : Fs)
    (df : FsFile)
    (hnq : hasSuffix f.name ".!qB" = false)
    (hdest : (LinkOrCopy cfg t f dev fs).fs.lookupFile
        (BuildDestPath cfg t f).1 = some df)
    (hsize : df.size = f.size) :
    LinkOrCopy cfg t f dev (LinkOrCopy cfg t f dev fs).fs =
      ⟨some ⟨joinPath t.contentPath f.name, (BuildDestPath cfg t f).1,
          f.size, true, none⟩, none, (LinkOrCopy cfg t f dev fs).fs⟩ := by
  have hstat : Fs.statSize (LinkOrCopy cfg t f dev fs).fs
      ((BuildDestPath cfg t f).1) = some f.size := by
    rw [Fs.statSize, hdest]
    simp [hsize]
  conv_lhs => rw [LinkOrCopy]
  rw [hnq]
  simp only [Bool.false_eq_true, if_false]
  rw [buildDestPath_err]
  dsimp only
  rw [if_pos hstat]

/-- C3 (witness): the amended idempotence at a concrete copy-mode input —
the first call places the file, the second reports success and changes
nothing. -/
theorem linkOrCopy_second_call_idempotent_witness :
    LinkOrCopy cfgDel.monitor torA filA devZero
        (LinkOrCopy cfgDel.monitor torA filA devZero fsA).fs =
      ⟨some ⟨joinPath torA.contentPath filA.name,
          (BuildDestPath cfgDel.monitor torA filA).1, filA.size, true, none⟩,
        none, (LinkOrCopy cfgDel.monitor torA filA devZero fsA).fs⟩ :=
  linkOrCopy_second_call_idempotent cfgDel.monitor torA filA devZero fsA
    ⟨4, 1⟩ (by decide) (by decide) (by decide)

/-- C5: on a cross-device link error, fallback copy falls through to the
copy procedure and fallback error fails with the cross-device error leaving
the filesystem unchanged (no destination file); a link failure that is not
cross-device is a hard failure with no fallback, for every fallback
setting. -/
theorem createHardlink_cross_device_policy (src dst : String) (n : Int)
    (dev : String → Nat) (fs : Fs) (sf : FsFile)
    (hdst : fs.lookupFile dst = none)
    (hsrc : fs.lookupFile src = some sf)
    (hdev : dev src ≠ dev dst) :
    createHardlink src dst "copy" n dev fs = copyFile src dst n fs ∧
    createHardlink src dst "error" n dev fs
      = (some (.crossDevice src dst), fs) ∧
    ∀ (fb : String) (fs2 : Fs) (e : FsError),
      isCrossDeviceError e = false →
      Fs.link fs2 dev src dst = (some e, fs2) →
      createHardlink src dst fb n dev fs2 = (some (.linkFailed e), fs2) := by
  have hlink : Fs.link fs dev src dst = (some .exdev, fs) := by
    unfold Fs.link
    rw [hdst]
    simp [hsrc, hdev]
  refine ⟨?_, ?_, ?_⟩
  · rw [createHardlink, hlink]
    rfl
  · rw [createHardlink, hlink]
    rfl
  · intro fb fs2 e he hl
    rw [createHardlink, hl]
    dsimp only
    rw [he]
    simp

/-- C5 (witness): the three fallback behaviours at concrete inputs — a
cross-device situation under fallback copy and fallback error, and an
EEXIST link failure that is a hard failure. -/
theorem createHardlink_cross_device_policy_witness :
    createHardlink "s" "d" "copy" 3 devSplit fsW5
      = copyFile "s" "d" 3 fsW5 ∧
    createHardlink "s" "d" "error" 3 devSplit fsW5
      = (some (.crossDevice "s" "d"), fsW5) ∧
    createHardlink "s" "d" "copy" 3 devSplit fsEex
      = (some (.linkFailed .eexist), fsEex) := by
  obtain ⟨h1, h2, h3⟩ :=
    createHardlink_cross_device_policy "s" "d" 3 devSplit fsW5 ⟨3, 0⟩
      (by decide) (by decide) (by decide)
  exact ⟨h1, h2, h3 "copy" fsEex .eexist (by decide) (by decide)⟩

/-- C8 (counterexample): one tick processing two torrents whose files land
in the same destination directory refreshes that directory twice — the
dedup map is created per torrent, not per tick. -/
theorem tick_refreshes_same_directory_twice_cex :
    ((processCompletedTorrents cfgTick devZero roTrue filesOfTick
        [torA1, torB] fsTick).refreshCalls.map dirOf) = ["dest", "dest"] ∧
    ¬ (["dest", "dest"] : List String).Nodup := by
  decide

/-- C8 (amended): within one refreshPlexLibraries call — one torrent —
with every refresh succeeding, the directories of the refresh invocations
are pairwise distinct and disjoint from the directories already marked;
the deduplication is per torrent only. -/
theorem refresh_dedup_within_torrent (cfg : MonitorConfig) (t : Torrent)
    (ro : String → Bool) (files : List TorrentFile) (seen : List String)
    (hro : ∀ p, ro p = true) :
    ((refreshPlexLibraries cfg t ro files seen).calls.map dirOf).Nodup ∧
    ∀ d ∈ (refreshPlexLibraries cfg t ro files seen).calls.map dirOf,
      d ∉ seen := by
  induction files generalizing seen with
  | nil =>
      refine ⟨List.nodup_nil, ?_⟩
      intro d hd
      simp [refreshPlexLibraries] at hd
  | cons f rest ih =>
      unfold refreshPlexLibraries
      rw [buildDestPath_err]
      dsimp only
      split
      · exact ih seen
      · rename_i hcon
        rw [hro ((BuildDestPath cfg t f).1)]
        simp only [if_pos]
        obtain ⟨hnd, hsub⟩ := ih (dirOf ((BuildDestPath cfg t f).1) :: seen)
        constructor
        · simp only [List.map_cons, List.nodup_cons]
          refine ⟨fun hmem2 => ?_, hnd⟩
          exact (hsub _ hmem2) (List.mem_cons_self _ _)
        · intro d hd
          simp only [List.map_cons, List.mem_cons] at hd
          rcases hd with rfl | hd
          · simpa using hcon
          · intro habs
            exact (hsub d hd) (List.mem_cons_of_mem _ habs)

/-- C8 (witness): the per-torrent deduplication at a concrete input — two
files of one torrent flattened into the same destination directory produce
a single refresh invocation. -/
theorem refresh_dedup_within_torrent_witness :
    ((refreshPlexLibraries cfgTick.monitor torA1 roTrue [filA, filB2]
        []).calls.map dirOf).Nodup :=
  (refresh_dedup_within_torrent cfgTick.monitor torA1 roTrue [filA, filB2]
    [] (fun _ => rfl)).1

end QbSync
